import Mathlib

/-!
Verification of the Keybow2040 keymap action model
(`src/lib/keyboard/keys/{abc,light,press}.py`, `src/lib/keyboard/layers.py`).

The Python classes are embedded shallowly: each class's mutable instance
state becomes the fields of a constructor of the closed `KeyAction` type,
the four reaction methods become a pure `step` function returning the
updated action together with the list of observable effects (LED writes
and HID chord transmissions), and the chord mini-language parser of
`Press.parse_chords` is translated function by function.  External
collaborators (the `adafruit_hid` keycode table and layout resolver, the
`keybow2040` key objects) are modelled at their interfaces.
-/

namespace Keybow

/-- RGB color triple, as the Python code's `(r, g, b)` tuples. -/
abbrev Color := Nat × Nat × Nat

/- Constants of the external `adafruit_hid.keycode.Keycode` table, at their
USB HID usage values; only the identities matter to the keymap core. -/
namespace Keycode

def ALT : Nat := 0xE2

def COMMAND : Nat := 0xE3

def CONTROL : Nat := 0xE0

def OPTION : Nat := 0xE2

def SHIFT : Nat := 0xE1

def SPACE : Nat := 0x2C

def TAB : Nat := 0x2B

def LEFT_ARROW : Nat := 0x50

def RIGHT_ARROW : Nat := 0x4F

def UP_ARROW : Nat := 0x52

def DOWN_ARROW : Nat := 0x51

end Keycode

/-- `Press.SpecialKeys` from `src/lib/keyboard/keys/press.py`, the fixed
built-in dict from token to keycode, in source order. -/
def SpecialKeys : List (String × Nat) :=
  [ ("alt", Keycode.ALT),
    ("cmd", Keycode.COMMAND),
    ("ctrl", Keycode.CONTROL),
    ("option", Keycode.OPTION),
    ("shift", Keycode.SHIFT),
    ("space", Keycode.SPACE),
    ("tab", Keycode.TAB),
    ("left", Keycode.LEFT_ARROW),
    ("right", Keycode.RIGHT_ARROW),
    ("up", Keycode.UP_ARROW),
    ("down", Keycode.DOWN_ARROW) ]

/-- Splitting a character list at every occurrence of `sep`, keeping empty
pieces, as Python's `str.split` with an explicit separator does. -/
def splitOnChar (sep : Char) : List Char → List (List Char)
  | [] => [[]]
  | c :: cs =>
    if c = sep then
      [] :: splitOnChar sep cs
    else
      match splitOnChar sep cs with
      | [] => [[c]]
      | piece :: pieces => (c :: piece) :: pieces

/-- Python's `s.split(sep)` for a one-character separator. -/
def split (sep : Char) (s : String) : List String :=
  (splitOnChar sep s.toList).map fun cs => String.mk cs

/-- Interface of the external `KeyboardLayoutUS` resolver
(`globals.LAYOUT.keycodes`): a key name resolves to a sequence of keycodes,
or fails (`none`, modelling the raised lookup error). -/
abbrev Resolver := String → Option (List Nat)

/-- Resolution of one token of a chord, from the inner loop of
`Press.parse_chords`: try `Press.SpecialKeys[keyname]` first (appending the
single keycode), and only on a `KeyError` fall back to
`globals.LAYOUT.keycodes(keyname)` (extending with its result); a token
neither knows is an error. -/
def resolve_token (resolve : Resolver) (keyname : String) : Except String (List Nat) :=
  match SpecialKeys.lookup keyname with
  | some keycode => .ok [keycode]
  | none =>
    match resolve keyname with
    | some keycodes => .ok keycodes
    | none => .error keyname

/-- The inner loop of `Press.parse_chords`: accumulate the keycodes of each
token of one group, left to right; the first unresolvable token aborts. -/
def resolve_chord (resolve : Resolver) : List String → Except String (List Nat)
  | [] => .ok []
  | keyname :: keynames =>
    match resolve_token resolve keyname with
    | .ok keycodes => (resolve_chord resolve keynames).map fun rest => keycodes ++ rest
    | .error e => .error e

/-- The outer loop of `Press.parse_chords`: one keycode group per
space-separated chord, in source order. -/
def parse_groups (resolve : Resolver) : List String → Except String (List (List Nat))
  | [] => .ok []
  | chord :: chords =>
    match resolve_chord resolve (split '-' chord) with
    | .ok keycodes => (parse_groups resolve chords).map fun rest => keycodes :: rest
    | .error e => .error e

/-- `Press.parse_chords` from `src/lib/keyboard/keys/press.py`: split on
spaces into groups and on hyphens into tokens, resolving each token. -/
def parse_chords (resolve : Resolver) (chords : String) : Except String (List (List Nat)) :=
  parse_groups resolve (split ' ' chords)

/-- The four reaction events of `KeyAction`
(`src/lib/keyboard/keys/abc.py`): press, release, hold, per-cycle update. -/
inductive Event where
  | press
  | release
  | hold
  | update
deriving DecidableEq, Repr

/-- Observable side effects of a reaction: an LED write for the key
(`key.set_led(*color)`) or one HID chord transmission
(`globals.KEYBOARD.send(*keycodes_chord)`). -/
inductive Effect where
  | set_led (c : Color)
  | send (keycodes : List Nat)
deriving DecidableEq, Repr

/-- Read-only external state a reaction may consult: the host-reported HID
indicator LEDs, `globals.KEYBOARD.led_on` (used by `Mirror`). -/
structure Env where
  led_on : Nat → Bool

/-- The closed family of action classes of `src/lib/keyboard/keys/`,
each constructor carrying exactly that class's instance fields:
`Press.keycodes_chords`; `AlwaysOn.color`; `SwitchWhenPressed`'s inherited
`color` plus `COLOR_OFF`/`COLOR_ON`; `ToggleWhenPressed`'s `onoff`, `color`,
`COLOR_OFF`/`COLOR_ON`; `Mirror`'s `LED`, `COLOR_OFF`/`COLOR_ON`; and
`And.first`/`And.second`. -/
inductive KeyAction where
  | Press (keycodes_chords : List (List Nat))
  | AlwaysOn (color : Color)
  | SwitchWhenPressed (color COLOR_OFF COLOR_ON : Color)
  | ToggleWhenPressed (onoff : Bool) (color COLOR_OFF COLOR_ON : Color)
  | Mirror (LED : Nat) (COLOR_OFF COLOR_ON : Color)
  | And (first second : KeyAction)
deriving DecidableEq, Repr

/-- One reaction call: given the external indicator state, an action and an
event, the updated action state and the effects emitted, translated method
by method from `abc.py`, `light.py` and `press.py` (a method a class does
not override is the `KeyAction` base-class no-op). -/
def KeyAction.step (env : Env) : KeyAction → Event → KeyAction × List Effect
  | .Press keycodes_chords, .press =>
    (.Press keycodes_chords, keycodes_chords.map Effect.send)
  | .Press keycodes_chords, _ => (.Press keycodes_chords, [])
  | .AlwaysOn color, .update => (.AlwaysOn color, [.set_led color])
  | .AlwaysOn color, _ => (.AlwaysOn color, [])
  | .SwitchWhenPressed _ cOff cOn, .press =>
    (.SwitchWhenPressed cOn cOff cOn, [])
  | .SwitchWhenPressed _ cOff cOn, .release =>
    (.SwitchWhenPressed cOff cOff cOn, [])
  | .SwitchWhenPressed color cOff cOn, .update =>
    (.SwitchWhenPressed color cOff cOn, [.set_led color])
  | .SwitchWhenPressed color cOff cOn, .hold =>
    (.SwitchWhenPressed color cOff cOn, [])
  | .ToggleWhenPressed onoff _ cOff cOn, .press =>
    (.ToggleWhenPressed (!onoff) (if !onoff then cOn else cOff) cOff cOn, [])
  | .ToggleWhenPressed onoff color cOff cOn, .update =>
    (.ToggleWhenPressed onoff color cOff cOn, [.set_led color])
  | .ToggleWhenPressed onoff color cOff cOn, _ =>
    (.ToggleWhenPressed onoff color cOff cOn, [])
  | .Mirror led cOff cOn, .update =>
    (.Mirror led cOff cOn, [.set_led (if env.led_on led then cOn else cOff)])
  | .Mirror led cOff cOn, _ => (.Mirror led cOff cOn, [])
  | .And first second, e =>
    let r₁ := first.step env e
    let r₂ := second.step env e
    (.And r₁.1 r₂.1, r₁.2 ++ r₂.2)

/-- Running a sequence of reaction calls from a starting action state. -/
def KeyAction.run (env : Env) (a : KeyAction) : List Event → KeyAction
  | [] => a
  | e :: es => KeyAction.run env (a.step env e).1 es

/-- `Press.__init__`: parse the chord string at construction; an
unresolvable token is an error raised before the action exists. -/
def Press.init (resolve : Resolver) (chords : String) : Except String KeyAction :=
  (parse_chords resolve chords).map KeyAction.Press

/-- `AlwaysOn.__init__(color)`. -/
def AlwaysOn.init (color : Color) : KeyAction := .AlwaysOn color

/-- `SwitchWhenPressed.__init__(color_off, color_on)`: the inherited
`color` starts as `color_off`. -/
def SwitchWhenPressed.init (color_off color_on : Color) : KeyAction :=
  .SwitchWhenPressed color_off color_off color_on

/-- `ToggleWhenPressed.__init__(color_off, color_on)`: `onoff` starts
`False` and the inherited `color` starts as `color_off`. -/
def ToggleWhenPressed.init (color_off color_on : Color) : KeyAction :=
  .ToggleWhenPressed false color_off color_off color_on

/-- `Mirror.__init__(led, color_off, color_on)`. -/
def Mirror.init (led : Nat) (color_off color_on : Color) : KeyAction :=
  .Mirror led color_off color_on

/-- `And.__init__(first, second)`. -/
def And.init (first second : KeyAction) : KeyAction := .And first second

/-- A stored reaction callback: the bound method `action.on_event`, as
assigned by `KeyAction.hook` to a key's callback slots. -/
structure Handler where
  action : KeyAction
  event : Event
deriving DecidableEq, Repr

/-- Interface of the external `keybow2040.Key` object as the keymap core
touches it: its index `number`, its LED state, and the three callback slots
`KeyAction.hook` assigns. -/
structure Key where
  number : Nat
  led : Color
  press_function : Option Handler
  release_function : Option Handler
  hold_function : Option Handler
deriving DecidableEq, Repr

/-- The truthy branch of `KeyAction.hook` (`src/lib/keyboard/keys/abc.py`):
assign the action's `on_press`, `on_release` and `on_hold` to the key's
`press_function`, `release_function` and `hold_function`. -/
def KeyAction.hook_key (a : KeyAction) (key : Key) : Key :=
  { key with
    press_function := some ⟨a, Event.press⟩,
    release_function := some ⟨a, Event.release⟩,
    hold_function := some ⟨a, Event.hold⟩ }

/-- `KeyAction.hook`: `if key:` guards the assignment, so a falsy (`None`)
key is left untouched and the call returns normally. -/
def KeyAction.hook (a : KeyAction) : Option Key → Option Key
  | none => none
  | some key => some (a.hook_key key)

/-- Modelled from the spec: `number_to_xy`, imported by
`src/lib/keyboard/layers.py` from the external `keybow2040` module, is not
under `src/`; the spec fixes only that the key-index-to-(row, column)
mapping is a bijection between indices 0..15 and the 4×4 grid, "a pure
function of a fixed grid width (4)" (§6, §3).  We take the canonical
width-4 convention. -/
def number_to_xy (number : Nat) : Nat × Nat :=
  (number % 4, number / 4)

/-- Modelled from the spec: the inverse `gridToIndex` of the grid bijection
named by the round-trip law of §8; not under `src/`. -/
def xy_to_number (x y : Nat) : Nat :=
  x + 4 * y

/-- `Layer` from `src/lib/keyboard/layers.py`: the stored row-major action
matrix. -/
structure Layer where
  key_action_matrix : List (List KeyAction)

/-- `Layer.__init__(key_action_matrix, reverse=True)`: store
`tuple(reversed(key_action_matrix))` when `reverse` is set, the rows as
declared otherwise. -/
def Layer.init (key_action_matrix : List (List KeyAction)) (reverse : Bool := true) : Layer :=
  if reverse then ⟨key_action_matrix.reverse⟩ else ⟨key_action_matrix⟩

/-- The grid addressing shared by `Layer.hook` and `Layer.update`:
`x, y = number_to_xy(key.number)` then `self.key_action_matrix[x][y]`
(`none` models an out-of-range index error). -/
def Layer.action_at (l : Layer) (number : Nat) : Option KeyAction :=
  (l.key_action_matrix[(number_to_xy number).1]?).bind fun row =>
    row[(number_to_xy number).2]?

/-- `Layer.hook`: for every key of the keyboard, bind the action at the
key's resolved grid position to the key's callback slots. -/
def Layer.hook (l : Layer) (keys : List Key) : Option (List Key) :=
  keys.mapM fun k => (l.action_at k.number).map fun a => a.hook_key k

/-- `Layer.update`: for every key of the keyboard, invoke `update` on the
action at the key's resolved grid position. -/
def Layer.update (l : Layer) (env : Env) (keys : List Key) :
    Option (List (KeyAction × List Effect)) :=
  keys.mapM fun k => (l.action_at k.number).map fun a => a.step env .update

/-- Modelled from the spec: `Layer.press` — invoked as `layer1.press(key)`
by `src/code.py` but missing from `src/lib/keyboard/layers.py` — "directly
triggers `onPress` for the Action at the resolved grid position" (§4.4,
§6), resolving the grid position exactly as the `hook`/`update` loops do. -/
def Layer.press (l : Layer) (env : Env) (number : Nat) : Option (KeyAction × List Effect) :=
  (l.action_at number).map fun a => a.step env .press

/-! Helper lemmas about the chord parser. -/

/-- A token found in `Press.SpecialKeys` contributes exactly its table
keycode, whatever the resolver would say. -/
lemma resolve_token_special (resolve : Resolver) (t : String) (k : Nat)
    (h : SpecialKeys.lookup t = some k) : resolve_token resolve t = .ok [k] := by
  unfold resolve_token
  rw [h]

/-- A token missing from `Press.SpecialKeys` is handed to the resolver. -/
lemma resolve_token_fallback (resolve : Resolver) (t : String)
    (h : SpecialKeys.lookup t = none) :
    resolve_token resolve t
      = (match resolve t with | some ks => Except.ok ks | none => Except.error t) := by
  unfold resolve_token
  rw [h]

/-- Unfolding one resolvable token of a group. -/
lemma resolve_chord_cons_ok (resolve : Resolver) (t : String) (ts : List String)
    (ks : List Nat) (h : resolve_token resolve t = .ok ks) :
    resolve_chord resolve (t :: ts) = (resolve_chord resolve ts).map fun rest => ks ++ rest := by
  conv_lhs => unfold resolve_chord
  rw [h]

/-- An unresolvable token aborts its group. -/
lemma resolve_chord_cons_error (resolve : Resolver) (t : String) (ts : List String)
    (e : String) (h : resolve_token resolve t = .error e) :
    resolve_chord resolve (t :: ts) = .error e := by
  unfold resolve_chord
  rw [h]

/-- Unfolding one successfully resolved group. -/
lemma parse_groups_cons_ok (resolve : Resolver) (g : String) (gs : List String)
    (ks : List Nat) (h : resolve_chord resolve (split '-' g) = .ok ks) :
    parse_groups resolve (g :: gs) = (parse_groups resolve gs).map fun rest => ks :: rest := by
  conv_lhs => unfold parse_groups
  rw [h]

/-- A failing group aborts the parse. -/
lemma parse_groups_cons_error (resolve : Resolver) (g : String) (gs : List String)
    (e : String) (h : resolve_chord resolve (split '-' g) = .error e) :
    parse_groups resolve (g :: gs) = .error e := by
  unfold parse_groups
  rw [h]

/-- A group containing a token that neither the special-key table nor the
resolver knows fails to resolve. -/
lemma resolve_chord_error_of_mem (resolve : Resolver) (ts : List String) (tok : String)
    (hmem : tok ∈ ts) (hsp : SpecialKeys.lookup tok = none) (hres : resolve tok = none) :
    ∃ e, resolve_chord resolve ts = .error e := by
  induction ts with
  | nil => cases hmem
  | cons t ts ih =>
    rcases List.mem_cons.mp hmem with rfl | hmem'
    · refine ⟨tok, resolve_chord_cons_error resolve tok ts tok ?_⟩
      rw [resolve_token_fallback resolve tok hsp, hres]
    · cases h : resolve_token resolve t with
      | ok ks =>
        obtain ⟨e, he⟩ := ih hmem'
        refine ⟨e, ?_⟩
        rw [resolve_chord_cons_ok resolve t ts ks h, he]
        rfl
      | error e => exact ⟨e, resolve_chord_cons_error resolve t ts e h⟩

/-- A chord list one of whose groups contains a doubly-unknown token fails
to parse. -/
lemma parse_groups_error_of_mem (resolve : Resolver) (gs : List String) (g tok : String)
    (hg : g ∈ gs) (ht : tok ∈ split '-' g)
    (hsp : SpecialKeys.lookup tok = none) (hres : resolve tok = none) :
    ∃ e, parse_groups resolve gs = .error e := by
  induction gs with
  | nil => cases hg
  | cons g' gs ih =>
    rcases List.mem_cons.mp hg with rfl | hg'
    · obtain ⟨e, he⟩ := resolve_chord_error_of_mem resolve (split '-' g) tok ht hsp hres
      exact ⟨e, parse_groups_cons_error resolve g gs e he⟩
    · cases h : resolve_chord resolve (split '-' g') with
      | ok ks =>
        obtain ⟨e, he⟩ := ih hg'
        refine ⟨e, ?_⟩
        rw [parse_groups_cons_ok resolve g' gs ks h, he]
        rfl
      | error e => exact ⟨e, parse_groups_cons_error resolve g' gs e h⟩

/-- Parity of the number of press edges, one step. -/
lemma decide_succ_mod_two (n : Nat) :
    decide ((n + 1) % 2 = 1) = !decide (n % 2 = 1) := by
  rcases Nat.mod_two_eq_zero_or_one n with h | h <;> simp [Nat.add_mod, h]

/-- Running any event sequence from a consistent `ToggleWhenPressed` state:
the latch ends up xor-ed with the parity of the press count, the stored
color tracks the latch, and the configured colors are untouched. -/
lemma toggle_run_parity (env : Env) (cOff cOn c : Color) (b : Bool)
    (hc : c = if b then cOn else cOff) (es : List Event) :
    KeyAction.run env (.ToggleWhenPressed b c cOff cOn) es
      = .ToggleWhenPressed (b ^^ decide (es.count Event.press % 2 = 1))
          (if b ^^ decide (es.count Event.press % 2 = 1) then cOn else cOff) cOff cOn := by
  induction es generalizing b c with
  | nil => simp [KeyAction.run, hc]
  | cons e es ih =>
    cases e with
    | press =>
      show KeyAction.run env (.ToggleWhenPressed (!b) (if !b then cOn else cOff) cOff cOn) es = _
      rw [ih (if !b then cOn else cOff) (!b) rfl]
      simp [List.count_cons, decide_succ_mod_two, Bool.not_xor, Bool.xor_not]
    | release =>
      show KeyAction.run env (.ToggleWhenPressed b c cOff cOn) es = _
      rw [ih c b hc]
      simp [List.count_cons]
    | hold =>
      show KeyAction.run env (.ToggleWhenPressed b c cOff cOn) es = _
      rw [ih c b hc]
      simp [List.count_cons]
    | update =>
      show KeyAction.run env (.ToggleWhenPressed b c cOff cOn) es = _
      rw [ih c b hc]
      simp [List.count_cons]

/-! The claims. -/

/-- Claim C1: `Press` construction parses its chord string by splitting on
spaces into groups and on hyphens into tokens, preserving source order:
parsing `"ctrl-alt-cmd-C"` yields exactly one group of four keycodes in
order ctrl, alt, cmd, then the resolved code for `"C"`; parsing
`"ctrl-alt-M ctrl-alt-N"` yields two groups, and `on_press` sends each
group as a separate chord transmission in left-to-right group order. -/
theorem claim_C1 (resolve : Resolver) (c mc nc : Nat)
    (hC : resolve "C" = some [c]) (hM : resolve "M" = some [mc])
    (hN : resolve "N" = some [nc]) :
    parse_chords resolve "ctrl-alt-cmd-C"
      = .ok [[Keycode.CONTROL, Keycode.ALT, Keycode.COMMAND, c]] ∧
    ∃ p, Press.init resolve "ctrl-alt-M ctrl-alt-N" = .ok p ∧
      ∀ env : Env, (p.step env .press).2
        = [Effect.send [Keycode.CONTROL, Keycode.ALT, mc],
           Effect.send [Keycode.CONTROL, Keycode.ALT, nc]] := by
  have tC : resolve_token resolve "C" = .ok [c] := by
    rw [resolve_token_fallback resolve "C" rfl, hC]
  have tM : resolve_token resolve "M" = .ok [mc] := by
    rw [resolve_token_fallback resolve "M" rfl, hM]
  have tN : resolve_token resolve "N" = .ok [nc] := by
    rw [resolve_token_fallback resolve "N" rfl, hN]
  have tctrl : resolve_token resolve "ctrl" = .ok [Keycode.CONTROL] := rfl
  have talt : resolve_token resolve "alt" = .ok [Keycode.ALT] := rfl
  have tcmd : resolve_token resolve "cmd" = .ok [Keycode.COMMAND] := rfl
  have g1 : resolve_chord resolve ["ctrl", "alt", "cmd", "C"]
      = .ok [Keycode.CONTROL, Keycode.ALT, Keycode.COMMAND, c] := by
    rw [resolve_chord_cons_ok resolve _ _ _ tctrl,
        resolve_chord_cons_ok resolve _ _ _ talt,
        resolve_chord_cons_ok resolve _ _ _ tcmd,
        resolve_chord_cons_ok resolve _ _ _ tC]
    rfl
  have g2 : resolve_chord resolve ["ctrl", "alt", "M"]
      = .ok [Keycode.CONTROL, Keycode.ALT, mc] := by
    rw [resolve_chord_cons_ok resolve _ _ _ tctrl,
        resolve_chord_cons_ok resolve _ _ _ talt,
        resolve_chord_cons_ok resolve _ _ _ tM]
    rfl
  have g3 : resolve_chord resolve ["ctrl", "alt", "N"]
      = .ok [Keycode.CONTROL, Keycode.ALT, nc] := by
    rw [resolve_chord_cons_ok resolve _ _ _ tctrl,
        resolve_chord_cons_ok resolve _ _ _ talt,
        resolve_chord_cons_ok resolve _ _ _ tN]
    rfl
  constructor
  · show parse_groups resolve (split ' ' "ctrl-alt-cmd-C") = _
    rw [show split ' ' "ctrl-alt-cmd-C" = ["ctrl-alt-cmd-C"] from rfl,
        parse_groups_cons_ok resolve _ _ _
          (by rw [show split '-' "ctrl-alt-cmd-C" = ["ctrl", "alt", "cmd", "C"] from rfl, g1])]
    rfl
  · refine ⟨.Press [[Keycode.CONTROL, Keycode.ALT, mc], [Keycode.CONTROL, Keycode.ALT, nc]],
      ?_, fun env => rfl⟩
    show (parse_groups resolve (split ' ' "ctrl-alt-M ctrl-alt-N")).map KeyAction.Press = _
    rw [show split ' ' "ctrl-alt-M ctrl-alt-N" = ["ctrl-alt-M", "ctrl-alt-N"] from rfl,
        parse_groups_cons_ok resolve _ _ _
          (by rw [show split '-' "ctrl-alt-M" = ["ctrl", "alt", "M"] from rfl, g2]),
        parse_groups_cons_ok resolve _ _ _
          (by rw [show split '-' "ctrl-alt-N" = ["ctrl", "alt", "N"] from rfl, g3])]
    rfl

/-- A concrete stand-in for the external layout resolver, for witnesses. -/
def sample_resolver : Resolver := fun s =>
  if s = "C" then some [6] else if s = "M" then some [16]
  else if s = "N" then some [17] else none

/-- Witness for claim C1 at a concrete resolver. -/
theorem claim_C1_witness :
    parse_chords sample_resolver "ctrl-alt-cmd-C"
      = .ok [[Keycode.CONTROL, Keycode.ALT, Keycode.COMMAND, 6]] ∧
    ∃ p, Press.init sample_resolver "ctrl-alt-M ctrl-alt-N" = .ok p ∧
      ∀ env : Env, (p.step env .press).2
        = [Effect.send [Keycode.CONTROL, Keycode.ALT, 16],
           Effect.send [Keycode.CONTROL, Keycode.ALT, 17]] :=
  claim_C1 sample_resolver 6 16 17 rfl rfl rfl

/-- Claim C2: for a freshly constructed `ToggleWhenPressed(colorOff,
colorOn)`, after any event sequence — any interleaving of press, release,
hold and update calls — the next `update` writes colorOn to the key's LED
exactly when the number of press calls so far is odd (so after
construction it writes colorOff, after one press colorOn, after a second
press colorOff again, with no release needed), and the action's state is
unchanged by the `update` itself. -/
theorem claim_C2 (env : Env) (cOff cOn : Color) (es : List Event) :
    ((ToggleWhenPressed.init cOff cOn).run env es).step env .update
      = ((ToggleWhenPressed.init cOff cOn).run env es,
         [Effect.set_led (if es.count Event.press % 2 = 1 then cOn else cOff)]) := by
  have h := toggle_run_parity env cOff cOn cOff false (by simp) es
  simp only [ToggleWhenPressed.init]
  rw [h]
  by_cases hp : es.count Event.press % 2 = 1 <;> simp [hp, KeyAction.step]

/-- Claim C3: for every `SwitchWhenPressed(colorOff, colorOn)` state,
press followed by update writes colorOn to the LED, the subsequent release
followed by update writes colorOff, and after the complete press/release
pair the state equals the freshly constructed one (stored color back to
colorOff — no stuck state); update and hold never change the state. -/
theorem claim_C3 (env : Env) (c cOff cOn : Color) :
    (((KeyAction.SwitchWhenPressed c cOff cOn).step env .press).1.step env .update).2
        = [Effect.set_led cOn] ∧
    ((((KeyAction.SwitchWhenPressed c cOff cOn).step env .press).1.step env
        .release).1.step env .update).2
        = [Effect.set_led cOff] ∧
    (((KeyAction.SwitchWhenPressed c cOff cOn).step env .press).1.step env .release).1
        = SwitchWhenPressed.init cOff cOn ∧
    ((KeyAction.SwitchWhenPressed c cOff cOn).step env .update).1
        = .SwitchWhenPressed c cOff cOn ∧
    ((KeyAction.SwitchWhenPressed c cOff cOn).step env .hold).1
        = .SwitchWhenPressed c cOff cOn :=
  ⟨rfl, rfl, rfl, rfl, rfl⟩

/-- Claim C4: for every pair of actions, `And(first, second)` forwards each
of the four reactions first to `first` and then to `second`,
unconditionally and with no short-circuiting: the resulting state is both
children's updated states and the emitted effects are `first`'s effects
followed by `second`'s, for every event. -/
theorem claim_C4 (env : Env) (first second : KeyAction) (e : Event) :
    (KeyAction.And first second).step env e
      = (.And (first.step env e).1 (second.step env e).1,
         (first.step env e).2 ++ (second.step env e).2) := rfl

/-- Claim C5: `Layer` construction stores the declared rows reversed when
the `reverse` flag (defaulting to true) is set and unchanged otherwise, so
a key whose grid position resolves to stored row 0 dispatches into the
last declared row. -/
theorem claim_C5 (m : List (List KeyAction)) (n : Nat)
    (h : (number_to_xy n).1 = 0) :
    (Layer.init m true).key_action_matrix = m.reverse ∧
    (Layer.init m false).key_action_matrix = m ∧
    (Layer.init m).key_action_matrix = m.reverse ∧
    (Layer.init m true).action_at n
      = m.getLast?.bind fun row => row[(number_to_xy n).2]? := by
  refine ⟨rfl, rfl, rfl, ?_⟩
  unfold Layer.action_at
  rw [h]
  show (m.reverse[0]?).bind _ = _
  rw [show m.reverse[0]? = m.getLast? from by
    rw [← List.head?_eq_getElem?, List.head?_reverse]]

/-- Witness for claim C5 at a concrete two-row matrix and key index 0. -/
theorem claim_C5_witness :
    (Layer.init [[AlwaysOn.init (1, 2, 3)], [AlwaysOn.init (4, 5, 6)]] true).key_action_matrix
      = [[AlwaysOn.init (1, 2, 3)], [AlwaysOn.init (4, 5, 6)]].reverse ∧
    (Layer.init [[AlwaysOn.init (1, 2, 3)], [AlwaysOn.init (4, 5, 6)]] false).key_action_matrix
      = [[AlwaysOn.init (1, 2, 3)], [AlwaysOn.init (4, 5, 6)]] ∧
    (Layer.init [[AlwaysOn.init (1, 2, 3)], [AlwaysOn.init (4, 5, 6)]]).key_action_matrix
      = [[AlwaysOn.init (1, 2, 3)], [AlwaysOn.init (4, 5, 6)]].reverse ∧
    (Layer.init [[AlwaysOn.init (1, 2, 3)], [AlwaysOn.init (4, 5, 6)]] true).action_at 0
      = [[AlwaysOn.init (1, 2, 3)], [AlwaysOn.init (4, 5, 6)]].getLast?.bind
          fun row => row[(number_to_xy 0).2]? :=
  claim_C5 [[AlwaysOn.init (1, 2, 3)], [AlwaysOn.init (4, 5, 6)]] 0 rfl

/-- Claim C6: `Layer.press` (modelled from the spec, see its definition)
directly triggers the press reaction of the action at the grid position
resolved from the given key index, for every valid index whose position
holds an action. -/
theorem claim_C6 (l : Layer) (env : Env) (i : Fin 16) (a : KeyAction)
    (h : l.action_at i = some a) :
    l.press env i = some (a.step env .press) := by
  unfold Layer.press
  rw [h]
  rfl

/-- Witness for claim C6 at a concrete one-cell layer and key index 0. -/
theorem claim_C6_witness :
    (Layer.init [[AlwaysOn.init (7, 8, 9)]] false).press ⟨fun _ => false⟩ 0
      = some ((AlwaysOn.init (7, 8, 9)).step ⟨fun _ => false⟩ .press) :=
  claim_C6 (Layer.init [[AlwaysOn.init (7, 8, 9)]] false) ⟨fun _ => false⟩ 0
    (AlwaysOn.init (7, 8, 9)) rfl

/-- Claim C7: token resolution consults the built-in special-key table
first — a table hit is final — and only on a miss falls back to the
resolver; a token unknown to both makes `Press` construction (where
`parse_chords` runs) return an error, so no `Press` action exists and no
`on_press` HID transmission can ever occur for such a chord string. -/
theorem claim_C7 (resolve : Resolver) (chords g tok : String)
    (hg : g ∈ split ' ' chords) (ht : tok ∈ split '-' g)
    (hsp : SpecialKeys.lookup tok = none) (hres : resolve tok = none) :
    (∀ t k, SpecialKeys.lookup t = some k → resolve_token resolve t = .ok [k]) ∧
    (∀ t ks, SpecialKeys.lookup t = none → resolve t = some ks →
      resolve_token resolve t = .ok ks) ∧
    (∀ t, SpecialKeys.lookup t = none → resolve t = none →
      resolve_token resolve t = .error t) ∧
    (∃ e, Press.init resolve chords = .error e) ∧
    (∀ a, Press.init resolve chords = .ok a → False) := by
  obtain ⟨e, he⟩ := parse_groups_error_of_mem resolve (split ' ' chords) g tok hg ht hsp hres
  refine ⟨fun t k h => resolve_token_special resolve t k h,
    fun t ks h1 h2 => by rw [resolve_token_fallback resolve t h1, h2],
    fun t h1 h2 => by rw [resolve_token_fallback resolve t h1, h2],
    ⟨e, ?_⟩, fun a ha => ?_⟩
  · show (parse_groups resolve (split ' ' chords)).map KeyAction.Press = _
    rw [he]
    rfl
  · rw [show Press.init resolve chords
        = (parse_groups resolve (split ' ' chords)).map KeyAction.Press from rfl, he] at ha
    cases ha

/-- A resolver that knows no names, for the claim C7 witness. -/
def empty_resolver : Resolver := fun _ => none

/-- Witness for claim C7 at the chord string containing the token
unknowable to both the table and the resolver. -/
theorem claim_C7_witness :
    (∀ t k, SpecialKeys.lookup t = some k → resolve_token empty_resolver t = .ok [k]) ∧
    (∀ t ks, SpecialKeys.lookup t = none → empty_resolver t = some ks →
      resolve_token empty_resolver t = .ok ks) ∧
    (∀ t, SpecialKeys.lookup t = none → empty_resolver t = none →
      resolve_token empty_resolver t = .error t) ∧
    (∃ e, Press.init empty_resolver "ctrl-unicorn" = .error e) ∧
    (∀ a, Press.init empty_resolver "ctrl-unicorn" = .ok a → False) :=
  claim_C7 empty_resolver "ctrl-unicorn" "ctrl-unicorn" "unicorn"
    (by decide) (by decide) rfl rfl

/-- Claim C8: `Mirror(indicator, colorOff, colorOn)` holds no mutable
state — press, release and hold return the action unchanged with no
effects — and every update returns the action unchanged and writes to the
LED colorOn exactly when the named external indicator currently reads on,
colorOff otherwise. -/
theorem claim_C8 (env : Env) (led : Nat) (cOff cOn : Color) :
    (KeyAction.Mirror led cOff cOn).step env .press = (.Mirror led cOff cOn, []) ∧
    (KeyAction.Mirror led cOff cOn).step env .release = (.Mirror led cOff cOn, []) ∧
    (KeyAction.Mirror led cOff cOn).step env .hold = (.Mirror led cOff cOn, []) ∧
    (KeyAction.Mirror led cOff cOn).step env .update
      = (.Mirror led cOff cOn,
         [.set_led (if env.led_on led then cOn else cOff)]) :=
  ⟨rfl, rfl, rfl, rfl⟩

/-- Claim C9: the key-index-to-grid mapping and its inverse (both modelled
from the spec, see their definitions) form a bijection between indices
0..15 and the 4×4 grid: mapping an index to its coordinates and back is
the identity, the inverse round-trips on coordinates, and every grid cell
is hit by exactly one index. -/
theorem claim_C9 :
    (∀ i : Fin 16, xy_to_number (number_to_xy i).1 (number_to_xy i).2 = i) ∧
    (∀ x : Fin 4, ∀ y : Fin 4, number_to_xy (xy_to_number x y) = (x.val, y.val)) ∧
    (∀ x : Fin 4, ∀ y : Fin 4, ∃ i : Fin 16, number_to_xy i.val = (x.val, y.val) ∧
      ∀ j : Fin 16, number_to_xy j.val = (x.val, y.val) → j = i) := by
  decide

/-- Claim C10: for every action, `hook` with a falsy (`None`) key returns
normally and changes nothing, and with a truthy key sets exactly that
key's `press_function`, `release_function` and `hold_function` to the
action's press, release and hold handlers, leaving the key's other fields
unchanged. -/
theorem claim_C10 (a : KeyAction) (k : Key) :
    a.hook none = none ∧
    ∃ k', a.hook (some k) = some k' ∧
      k'.press_function = some ⟨a, Event.press⟩ ∧
      k'.release_function = some ⟨a, Event.release⟩ ∧
      k'.hold_function = some ⟨a, Event.hold⟩ ∧
      k'.number = k.number ∧ k'.led = k.led :=
  ⟨rfl, a.hook_key k, rfl, rfl, rfl, rfl, rfl, rfl⟩

end Keybow
